import Mathlib

/-!
Verification of `bellows/zigbee/application.py` (`ControllerApplication`).

The Python class is embedded shallowly: its mutable attributes become the
fields of `AppState`, each method becomes a pure state-transition function,
and calls into external collaborators (the EZSP/NCP driver, device objects,
listeners, the event loop) are recorded in the state or supplied as oracles.
Transaction ids, addresses and opaque payloads are modelled as `Nat`.
-/

namespace Bellows

/-! ## Python `dict` as an association list

Python dicts are insertion-ordered maps with unique keys.  We model them as
`List (Nat × α)` with key-uniqueness kept as an explicit hypothesis where a
proof needs it.  `dlookup` is `d[k]` / `k in d`, `dinsert` is `d[k] = v`,
`dpop` is `d.pop(k)`. -/

def dlookup (k : Nat) : List (Nat × α) → Option α
  | [] => none
  | (k', v) :: t => if k' = k then some v else dlookup k t

def dinsert (k : Nat) (v : α) : List (Nat × α) → List (Nat × α)
  | [] => [(k, v)]
  | (k', v') :: t => if k' = k then (k, v) :: t else (k', v') :: dinsert k v t

def dpop (k : Nat) : List (Nat × α) → List (Nat × α)
  | [] => []
  | (k', v') :: t => if k' = k then t else (k', v') :: dpop k t

/-- Keys of an association list are pairwise distinct (always true of a
Python dict). -/
def keysNodup (l : List (Nat × α)) : Prop := (l.map Prod.fst).Nodup

instance (l : List (Nat × α)) : Decidable (keysNodup l) := by
  unfold keysNodup; infer_instance

theorem dlookup_dpop_ne {l : List (Nat × α)} {k k' : Nat} (h : k' ≠ k) :
    dlookup k' (dpop k l) = dlookup k' l := by
  induction l with
  | nil => rfl
  | cons p t ih =>
    obtain ⟨a, v⟩ := p
    by_cases ha : a = k
    · subst ha
      simp [dpop, dlookup, Ne.symm h]
    · by_cases ha' : a = k'
      · subst ha'
        simp [dpop, dlookup, ha]
      · simp [dpop, dlookup, ha, ha', ih]

theorem dlookup_isNone_of_not_mem_keys {l : List (Nat × α)} {k : Nat}
    (h : k ∉ l.map Prod.fst) : dlookup k l = none := by
  induction l with
  | nil => rfl
  | cons p t ih =>
    obtain ⟨a, v⟩ := p
    simp only [List.map_cons, List.mem_cons, not_or] at h
    have ha : a ≠ k := fun hak => h.1 hak.symm
    simp only [dlookup, if_neg ha, ih h.2]

theorem dlookup_dpop_self {l : List (Nat × α)} {k : Nat} (h : keysNodup l) :
    dlookup k (dpop k l) = none := by
  induction l with
  | nil => rfl
  | cons p t ih =>
    obtain ⟨a, v⟩ := p
    simp only [keysNodup, List.map_cons, List.nodup_cons] at h
    by_cases ha : a = k
    · subst ha
      simp only [dpop, if_pos rfl]
      refine dlookup_isNone_of_not_mem_keys ?_
      intro hmem
      rcases List.mem_map.mp hmem with ⟨x, hx, hxk⟩
      exact h.1 ((List.mem_map.mpr ⟨x, hx, hxk⟩))
    · simp only [dpop, if_neg ha, dlookup, if_neg ha]
      exact ih h.2

theorem dpop_dinsert {l : List (Nat × α)} {k : Nat} {v : α}
    (h : dlookup k l = none) : dpop k (dinsert k v l) = l := by
  induction l with
  | nil => simp [dinsert, dpop]
  | cons p t ih =>
    obtain ⟨a, w⟩ := p
    by_cases ha : a = k
    · subst ha
      simp [dlookup] at h
    · simp only [dlookup, if_neg ha] at h
      simp [dinsert, dpop, ha, ih h]

theorem dlookup_dinsert_self {l : List (Nat × α)} {k : Nat} {v : α} :
    dlookup k (dinsert k v l) = some v := by
  induction l with
  | nil => simp [dinsert, dlookup]
  | cons p t ih =>
    obtain ⟨a, w⟩ := p
    by_cases ha : a = k
    · subst ha
      simp [dinsert, dlookup]
    · simp [dinsert, dlookup, ha, ih]

/-! ## Data model -/

/-- The registry's view of a device: its stable 64-bit identity (`ieee`) and
its current short network address (`_nwk`), the two attributes
`application.py` reads.  The device object's protocol internals live in the
external collaborator `bellows.zigbee.device.Device`. -/
structure Device where
  ieee : Nat
  nwk : Nat
  deriving DecidableEq, Repr

/-- The outcome with which an `asyncio.Future` in `self._pending` is
completed: `set_result(args)` or `set_exception(...)` for a send failure. -/
inductive Outcome where
  | ok (args : Nat)
  | sendFailure
  deriving DecidableEq, Repr

/-- Lifecycle events fanned out through `listener_event`. -/
inductive AppEvent where
  | device_joined (d : Device)
  | device_left (d : Device)
  deriving DecidableEq, Repr

/-- APS frame metadata; `application.py` reads only `destinationEndpoint`
and `sequence`. -/
structure ApsFrame where
  destinationEndpoint : Nat
  sequence : Nat
  deriving DecidableEq, Repr

/-- The `ControllerApplication`'s mutable attributes, plus logs of the calls it
makes into external collaborators (sends to the NCP, listener events,
scheduled device initializations, `radio_details` and `handle_request`
delegations) and of completed futures. -/
structure AppState where
  sendSequence : Nat                      -- `_send_sequence`
  devices : List (Nat × Device)           -- `devices` : ieee ↦ Device
  pending : List (Nat × Nat)              -- `_pending` : tsn ↦ future id
  nextFut : Nat                           -- allocator for future identities
  resolved : List (Nat × Outcome)         -- completed futures: id ↦ outcome
  events : List AppEvent                  -- `listener_event` emissions, in order
  inits : List Device                     -- `dev.initialize()` tasks scheduled
  radioCalls : List (Device × Nat × Nat)  -- `radio_details(lqi, rssi)` calls
  handledRequests : List (Device × Nat × Nat × Nat)  -- `handle_request` delegations
  sends : List (Nat × ApsFrame × Nat × Nat)  -- `sendUnicast(_, nwk, frame, seq, data)`
  nwk : Option Nat                        -- `_nwk`, unset before startup
  ieee : Option Nat                       -- `_ieee`, unset before startup
  deriving Repr

/-- A fresh `ControllerApplication.__init__` state. -/
def initialState : AppState :=
  { sendSequence := 0, devices := [], pending := [], nextFut := 0
    resolved := [], events := [], inits := [], radioCalls := []
    handledRequests := [], sends := [], nwk := none, ieee := none }

/-- Constant `t.EmberDeviceUpdate.DEVICE_LEFT` (0x02 in `bellows.types`). -/
def DEVICE_LEFT : Nat := 2

/-! ## Device registry and lifecycle handlers -/

/-- Method `add_device`: return the existing entry if the identity is registered
(the short address is NOT reconciled — the source carries a
`TODO: Check NWK?`), otherwise create and register a new device. -/
def add_device (s : AppState) (ieee nwk : Nat) : AppState × Device :=
  match dlookup ieee s.devices with
  | some d => (s, d)
  | none =>
    let dev : Device := ⟨ieee, nwk⟩
    ({ s with devices := dinsert ieee dev s.devices }, dev)

/-- Lookup `get_device(ieee=...)`: exact lookup by stable identity. -/
def get_device_ieee (s : AppState) (ieee : Nat) : Option Device :=
  dlookup ieee s.devices

/-- Lookup `get_device(nwk=...)`: linear scan of the registry values for a device
whose `_nwk` matches. -/
def get_device_nwk (s : AppState) (nwk : Nat) : Option Device :=
  (s.devices.find? (fun p => p.2.nwk = nwk)).map Prod.snd

/-- The fall-through body of `_handle_join`: `add_device`, emit
`device_joined`, and schedule the device's initialization on the loop. -/
def handle_join_go (s : AppState) (nwk ieee : Nat) : AppState :=
  let (s1, dev) := add_device s ieee nwk
  { s1 with
    events := s1.events ++ [.device_joined dev]
    inits := s1.inits ++ [dev] }

/-- Method `_handle_join`: skip when the identity is registered under the same
short address; otherwise `add_device`, emit `device_joined`, and schedule
the device's initialization on the event loop. -/
def handle_join (s : AppState) (nwk ieee : Nat) : AppState :=
  match dlookup ieee s.devices with
  | some d => if d.nwk = nwk then s else handle_join_go s nwk ieee
  | none => handle_join_go s nwk ieee

/-- Method `_handle_leave`: `devices.pop(ieee, None)`; emit `device_left` only if
an entry existed. -/
def handle_leave (s : AppState) (_nwk ieee : Nat) : AppState :=
  match dlookup ieee s.devices with
  | some d =>
    { s with devices := dpop ieee s.devices
             events := s.events ++ [.device_left d] }
  | none => s

/-! ## Reply / send-failure correlation -/

/-- Method `_handle_reply`: pop the pending future for the TSN and resolve it with
the decoded arguments; an unknown TSN is logged and dropped. -/
def handle_reply (s : AppState) (_sender : Nat) (_apsFrame : ApsFrame)
    (tsn _commandId args : Nat) : AppState :=
  match dlookup tsn s.pending with
  | some fid =>
    { s with pending := dpop tsn s.pending
             resolved := (fid, Outcome.ok args) :: s.resolved }
  | none => s

/-- Method `_handle_request`: look up the sender by short address; delegate to the
device's `handle_request`, or log and drop if the device is unknown. -/
def handle_request (s : AppState) (sender : Nat) (_apsFrame : ApsFrame)
    (tsn commandId args : Nat) : AppState :=
  match get_device_nwk s sender with
  | some d => { s with handledRequests := s.handledRequests ++ [(d, tsn, commandId, args)] }
  | none => s

/-- Method `_handle_frame_failure`: pop the pending future for the message tag and
complete it with a send-failure exception; an unknown tag is logged. -/
def handle_frame_failure (s : AppState) (_messageType _destination : Nat)
    (_apsFrame : ApsFrame) (messageTag _status _message : Nat) : AppState :=
  match dlookup messageTag s.pending with
  | some fid =>
    { s with pending := dpop messageTag s.pending
             resolved := (fid, Outcome.sendFailure) :: s.resolved }
  | none => s

/-- The external codec (`zdo.deserialize` / `zcl.deserialize`):
frame metadata and payload ↦ (tsn, command id, is-reply flag, args). -/
abbrev Deserializer := ApsFrame → Nat → Nat × Nat × Bool × Nat

/-- Method `_handle_frame`: update the sender's radio details when it is known,
decode via the endpoint-selected codec, and route to the reply or request
handler. -/
def handle_frame (deserialize : Deserializer) (s : AppState)
    (_messageType : Nat) (apsFrame : ApsFrame) (lqi rssi sender : Nat)
    (message : Nat) : AppState :=
  let s1 :=
    match get_device_nwk s sender with
    | some d => { s with radioCalls := s.radioCalls ++ [(d, lqi, rssi)] }
    | none => s
  let (tsn, commandId, isReply, args) := deserialize apsFrame message
  if isReply then handle_reply s1 sender apsFrame tsn commandId args
  else handle_request s1 sender apsFrame tsn commandId args

/-- The NCP callback frames consumed by `ezsp_callback_handler`. -/
inductive CallbackFrame where
  | incomingMessageHandler (messageType : Nat) (apsFrame : ApsFrame)
      (lqi rssi sender bindingIndex addressIndex message : Nat)
  | messageSentHandler (messageType destination : Nat) (apsFrame : ApsFrame)
      (messageTag status message : Nat)
  | trustCenterJoinHandler (nwk ieee deviceUpdate joinDec parentNwk : Nat)
  deriving Repr

/-- Method `ezsp_callback_handler`: classify the callback and dispatch.  A
`messageSentHandler` with success status (`args[4] == 0`) is ignored; a
`trustCenterJoinHandler` is a leave exactly when the device-update field is
`DEVICE_LEFT`. -/
def ezsp_callback_handler (deserialize : Deserializer) (s : AppState) :
    CallbackFrame → AppState
  | .incomingMessageHandler mt apsFrame lqi rssi sender _ _ message =>
    handle_frame deserialize s mt apsFrame lqi rssi sender message
  | .messageSentHandler mt dest apsFrame tag status message =>
    if status ≠ 0 then handle_frame_failure s mt dest apsFrame tag status message
    else s
  | .trustCenterJoinHandler nwk ieee deviceUpdate _ _ =>
    if deviceUpdate = DEVICE_LEFT then handle_leave s nwk ieee
    else handle_join s nwk ieee

/-! ## Request / reply API and sequence allocator -/

/-- How a `request` call can fail before its future resolves: the
`assert seq not in self._pending` programming-error check, or a non-zero
`sendUnicast` status. -/
inductive ReqErr where
  | seqCollision
  | sendFailure (status : Nat)
  deriving DecidableEq, Repr

/-- The synchronous prefix of `request` (everything before `yield from fut`):
assert the frame's sequence is not pending, register a fresh future under
it, issue `sendUnicast`, and on a non-zero send status pop the entry and
raise.  `sendStatus` is the NCP's reply to `sendUnicast`; on success the
registered future's identity is returned. -/
def request_start (sendStatus : Nat) (s : AppState) (nwk : Nat)
    (apsFrame : ApsFrame) (data : Nat) : AppState × Except ReqErr Nat :=
  let seq := apsFrame.sequence
  if (dlookup seq s.pending).isSome then (s, .error .seqCollision)
  else
    let fid := s.nextFut
    let s1 := { s with pending := dinsert seq fid s.pending
                       nextFut := fid + 1
                       sends := s.sends ++ [(nwk, apsFrame, seq, data)] }
    if sendStatus ≠ 0 then
      ({ s1 with pending := dpop seq s1.pending }, .error (.sendFailure sendStatus))
    else (s1, .ok fid)

/-- Method `reply`: fire-and-forget `sendUnicast` stamped with the frame's own
sequence; no pending entry is created. -/
def reply (s : AppState) (nwk : Nat) (apsFrame : ApsFrame) (data : Nat) : AppState :=
  { s with sends := s.sends ++ [(nwk, apsFrame, apsFrame.sequence, data)] }

/-- Method `get_sequence`: advance `_send_sequence` to `(previous + 1) % 256` and
return it. -/
def get_sequence (s : AppState) : AppState × Nat :=
  let n := (s.sendSequence + 1) % 256
  ({ s with sendSequence := n }, n)

/-- Runs `n` consecutive `get_sequence` calls; returns the ids in call order. -/
def allocs (s : AppState) : Nat → AppState × List Nat
  | 0 => (s, [])
  | n + 1 =>
    let (s1, x) := get_sequence s
    let (s2, xs) := allocs s1 n
    (s2, x :: xs)

/-! ## Startup sequencer

Identifier constants from `bellows.types` (their numeric values only tag
the calls; nothing below depends on the particular numbers). -/

def CONFIG_STACK_PROFILE : Nat := 0x0C
def CONFIG_SECURITY_LEVEL : Nat := 0x0D
def CONFIG_SUPPORTED_NETWORKS : Nat := 0x2D
def CONFIG_APPLICATION_ZDO_FLAGS : Nat := 0x2A
def CONFIG_TRUST_CENTER_ADDRESS_CACHE_SIZE : Nat := 0x19
def CONFIG_PACKET_BUFFER_COUNT : Nat := 0x01
def APP_RECEIVES_SUPPORTED_ZDO_REQUESTS : Nat := 0x01
def APP_HANDLES_UNSUPPORTED_ZDO_REQUESTS : Nat := 0x02

/-- The ZDO-flags value written at bring-up: the bitwise-or of the two
request-handling flags. -/
def zdoFlags : Nat :=
  APP_RECEIVES_SUPPORTED_ZDO_REQUESTS ||| APP_HANDLES_UNSUPPORTED_ZDO_REQUESTS

def TC_KEY_REQUEST_POLICY : Nat := 0x05
def APP_KEY_REQUEST_POLICY : Nat := 0x06
def TRUST_CENTER_POLICY : Nat := 0x00
def DENY_TC_KEY_REQUESTS : Nat := 0x20
def ALLOW_APP_KEY_REQUESTS : Nat := 0x61
def ALLOW_PRECONFIGURED_KEY_JOINS : Nat := 0x01

/-- Constant `t.EmberNodeType.COORDINATOR`. -/
def COORDINATOR : Nat := 0x01

/-- One NCP call made by `startup` (identified with its arguments, so the
executed trace records exactly which calls happened, in order). -/
inductive Step where
  | reset
  | version
  | setConfig (configId value : Nat)
  | networkInit
  | getNetworkParameters
  | setPolicy (policyId decisionId : Nat)
  | getNodeId
  | getEui64
  deriving DecidableEq, Repr

/-- How `startup` can fail: a bare `assert v[0] == 0` firing at a step, or
the explicit `Exception("Network not configured as coordinator")`. -/
inductive StartupErr where
  | stepFailed (step : Step)
  | notCoordinator
  deriving DecidableEq, Repr

/-- The NCP driver as an oracle: the status each command reports, the node
type returned by `getNetworkParameters`, and the identities returned by
`getNodeId` / `getEui64`. -/
structure NCP where
  resetStatus : Nat
  versionStatus : Nat
  setConfigStatus : Nat → Nat → Nat
  networkInitStatus : Nat
  getNetworkParametersStatus : Nat
  nodeType : Nat
  setPolicyStatus : Nat → Nat → Nat
  nodeId : Nat
  eui64 : Nat

/-- The running state of the startup sequence: the NCP calls executed so
far (in order), the application state, and the exception that aborted the
sequence, if any.  Once `err` is set, later calls do not run — this is the
Python exception propagating out of `startup`. -/
structure SeqState where
  trace : List Step
  app : AppState
  err : Option StartupErr
  deriving Repr

/-- The three kinds of transition `startup` performs: a call whose result
is not inspected (`reset()`, `version(4)`, `getNodeId()`, `getEui64()`), a
call followed by `assert v[0] == 0`, and the pure node-type test on the
already-fetched network parameters. -/
inductive Call where
  | unchecked (st : Step)
  | checked (st : Step) (status : Nat)
  | roleTest (nodeType : Nat)

/-- Run one transition, skipping it if the sequence has already aborted. -/
def runCall (q : SeqState) (c : Call) : SeqState :=
  if q.err.isSome then q
  else
    match c with
    | .unchecked st => { q with trace := q.trace ++ [st] }
    | .checked st status =>
      if status ≠ 0 then
        { q with trace := q.trace ++ [st], err := some (.stepFailed st) }
      else { q with trace := q.trace ++ [st] }
    | .roleTest nodeType =>
      if nodeType ≠ COORDINATOR then { q with err := some .notCoordinator }
      else q

def runCalls (q : SeqState) : List Call → SeqState
  | [] => q
  | c :: cs => runCalls (runCall q c) cs

/-- The ordered transitions of `startup` (with `_cfg` and `_policy`
inlined), as the source performs them against the NCP oracle. -/
def callsOf (ncp : NCP) : List Call :=
  [.unchecked .reset,
   .unchecked .version,
   .checked (.setConfig CONFIG_STACK_PROFILE 2)
     (ncp.setConfigStatus CONFIG_STACK_PROFILE 2),
   .checked (.setConfig CONFIG_SECURITY_LEVEL 5)
     (ncp.setConfigStatus CONFIG_SECURITY_LEVEL 5),
   .checked (.setConfig CONFIG_SUPPORTED_NETWORKS 1)
     (ncp.setConfigStatus CONFIG_SUPPORTED_NETWORKS 1),
   .checked (.setConfig CONFIG_SUPPORTED_NETWORKS 1)
     (ncp.setConfigStatus CONFIG_SUPPORTED_NETWORKS 1),
   .checked (.setConfig CONFIG_APPLICATION_ZDO_FLAGS zdoFlags)
     (ncp.setConfigStatus CONFIG_APPLICATION_ZDO_FLAGS zdoFlags),
   .checked (.setConfig CONFIG_TRUST_CENTER_ADDRESS_CACHE_SIZE 2)
     (ncp.setConfigStatus CONFIG_TRUST_CENTER_ADDRESS_CACHE_SIZE 2),
   .checked (.setConfig CONFIG_PACKET_BUFFER_COUNT 0xff)
     (ncp.setConfigStatus CONFIG_PACKET_BUFFER_COUNT 0xff),
   .checked .networkInit ncp.networkInitStatus,
   .checked .getNetworkParameters ncp.getNetworkParametersStatus,
   .roleTest ncp.nodeType,
   .checked (.setPolicy TC_KEY_REQUEST_POLICY DENY_TC_KEY_REQUESTS)
     (ncp.setPolicyStatus TC_KEY_REQUEST_POLICY DENY_TC_KEY_REQUESTS),
   .checked (.setPolicy APP_KEY_REQUEST_POLICY ALLOW_APP_KEY_REQUESTS)
     (ncp.setPolicyStatus APP_KEY_REQUEST_POLICY ALLOW_APP_KEY_REQUESTS),
   .checked (.setPolicy TRUST_CENTER_POLICY ALLOW_PRECONFIGURED_KEY_JOINS)
     (ncp.setPolicyStatus TRUST_CENTER_POLICY ALLOW_PRECONFIGURED_KEY_JOINS),
   .unchecked .getNodeId,
   .unchecked .getEui64]

/-- Method `startup`: run the bring-up handshake; when it runs to completion,
latch `_nwk` and `_ieee` from `getNodeId()` / `getEui64()`. -/
def startup (ncp : NCP) (s : AppState) : SeqState :=
  let q := runCalls { trace := [], app := s, err := none } (callsOf ncp)
  match q.err with
  | some _ => q
  | none => { q with app := { q.app with nwk := some ncp.nodeId, ieee := some ncp.eui64 } }

/-- All the statuses that `startup` actually `assert`-checks are success,
and the reported node type is coordinator.  (The `reset` and `version`
results are deliberately absent: the source never inspects them.) -/
def inspectedOk (ncp : NCP) : Prop :=
  ncp.setConfigStatus CONFIG_STACK_PROFILE 2 = 0 ∧
  ncp.setConfigStatus CONFIG_SECURITY_LEVEL 5 = 0 ∧
  ncp.setConfigStatus CONFIG_SUPPORTED_NETWORKS 1 = 0 ∧
  ncp.setConfigStatus CONFIG_APPLICATION_ZDO_FLAGS zdoFlags = 0 ∧
  ncp.setConfigStatus CONFIG_TRUST_CENTER_ADDRESS_CACHE_SIZE 2 = 0 ∧
  ncp.setConfigStatus CONFIG_PACKET_BUFFER_COUNT 0xff = 0 ∧
  ncp.networkInitStatus = 0 ∧
  ncp.getNetworkParametersStatus = 0 ∧
  ncp.nodeType = COORDINATOR ∧
  ncp.setPolicyStatus TC_KEY_REQUEST_POLICY DENY_TC_KEY_REQUESTS = 0 ∧
  ncp.setPolicyStatus APP_KEY_REQUEST_POLICY ALLOW_APP_KEY_REQUESTS = 0 ∧
  ncp.setPolicyStatus TRUST_CENTER_POLICY ALLOW_PRECONFIGURED_KEY_JOINS = 0

instance (ncp : NCP) : Decidable (inspectedOk ncp) := by
  unfold inspectedOk; infer_instance

/-- The status checks preceding the node-type check: the six distinct
configuration writes, `networkInit`, and `getNetworkParameters`. -/
def preRoleOk (ncp : NCP) : Prop :=
  ncp.setConfigStatus CONFIG_STACK_PROFILE 2 = 0 ∧
  ncp.setConfigStatus CONFIG_SECURITY_LEVEL 5 = 0 ∧
  ncp.setConfigStatus CONFIG_SUPPORTED_NETWORKS 1 = 0 ∧
  ncp.setConfigStatus CONFIG_APPLICATION_ZDO_FLAGS zdoFlags = 0 ∧
  ncp.setConfigStatus CONFIG_TRUST_CENTER_ADDRESS_CACHE_SIZE 2 = 0 ∧
  ncp.setConfigStatus CONFIG_PACKET_BUFFER_COUNT 0xff = 0 ∧
  ncp.networkInitStatus = 0 ∧
  ncp.getNetworkParametersStatus = 0

instance (ncp : NCP) : Decidable (preRoleOk ncp) := by
  unfold preRoleOk; infer_instance

/-! ## Auxiliary lemmas -/

theorem mem_dpop {l : List (Nat × α)} {k : Nat} {p : Nat × α}
    (h : p ∈ dpop k l) : p ∈ l := by
  induction l with
  | nil => exact absurd h (List.not_mem_nil p)
  | cons q t ih =>
    obtain ⟨a, v⟩ := q
    by_cases ha : a = k
    · simp only [dpop, if_pos ha] at h
      exact List.mem_cons_of_mem _ h
    · simp only [dpop, if_neg ha, List.mem_cons] at h
      rcases h with h | h
      · exact h ▸ List.mem_cons_self _ _
      · exact List.mem_cons_of_mem _ (ih h)

theorem dlookup_isSome_of_mem {l : List (Nat × α)} {p : Nat × α}
    (h : p ∈ l) : (dlookup p.1 l).isSome = true := by
  induction l with
  | nil => exact absurd h (List.not_mem_nil p)
  | cons q t ih =>
    obtain ⟨a, v⟩ := q
    rcases List.mem_cons.mp h with h | h
    · subst h
      simp [dlookup]
    · by_cases ha : a = p.1
      · simp [dlookup, ha]
      · simp only [dlookup, if_neg ha]
        exact ih h

theorem key_ne_of_mem_dpop {l : List (Nat × α)} {k : Nat} {p : Nat × α}
    (hn : keysNodup l) (h : p ∈ dpop k l) : p.1 ≠ k := by
  intro hk
  have h1 : dlookup k (dpop k l) = none := dlookup_dpop_self hn
  have h2 := dlookup_isSome_of_mem h
  rw [hk, h1] at h2
  simp at h2

/-! ## Concrete fixtures used by witnesses and counterexamples -/

/-- A frame addressed to endpoint 1 with sequence 7. -/
def frame7 : ApsFrame := { destinationEndpoint := 1, sequence := 7 }

/-- A state with one pending request: transaction id 7, future id 0. -/
def sPend : AppState := { initialState with pending := [(7, 0)], nextFut := 1 }

/-- A state with one registered device, identity 5 at short address 10. -/
def sDev : AppState :=
  { initialState with devices := [(5, { ieee := 5, nwk := 10 })] }

/-! ## C2: no duplicate pending entry -/

/-- C2: issuing a request whose transaction id (the frame's sequence) is
already present in the pending table fails with the programming-error
assertion; the state — pending table and send log included — is exactly
unchanged, so nothing is overwritten and no send is attempted. -/
theorem request_collision_fails (sendStatus : Nat) (s : AppState) (nwk0 : Nat)
    (f : ApsFrame) (data : Nat)
    (h : (dlookup f.sequence s.pending).isSome = true) :
    request_start sendStatus s nwk0 f data = (s, Except.error ReqErr.seqCollision) := by
  simp [request_start, h]

theorem request_collision_fails_witness :
    (dlookup frame7.sequence sPend.pending).isSome = true ∧
    request_start 0 sPend 34 frame7 99 = (sPend, Except.error ReqErr.seqCollision) :=
  ⟨by decide, request_collision_fails 0 sPend 34 frame7 99 (by decide)⟩

/-! ## C3: reply routing -/

/-- C3: a reply whose transaction id is pending removes exactly that entry
and resolves its future with the decoded arguments as the success outcome,
leaving every other pending entry (and all other state) unchanged; a reply
whose id is absent leaves the state entirely unchanged. -/
theorem handle_reply_resolves (s : AppState) (sender : Nat) (f : ApsFrame)
    (tsn commandId args : Nat) (hn : keysNodup s.pending) :
    (∀ fid, dlookup tsn s.pending = some fid →
       handle_reply s sender f tsn commandId args =
         { s with pending := dpop tsn s.pending
                  resolved := (fid, Outcome.ok args) :: s.resolved } ∧
       dlookup tsn (dpop tsn s.pending) = none ∧
       (∀ t, t ≠ tsn → dlookup t (dpop tsn s.pending) = dlookup t s.pending)) ∧
    (dlookup tsn s.pending = none → handle_reply s sender f tsn commandId args = s) := by
  constructor
  · intro fid h
    refine ⟨?_, dlookup_dpop_self hn, fun t ht => dlookup_dpop_ne ht⟩
    simp [handle_reply, h]
  · intro h
    simp [handle_reply, h]

theorem handle_reply_resolves_witness :
    handle_reply sPend 3 frame7 7 1 55 =
      { sPend with pending := dpop 7 sPend.pending
                   resolved := (0, Outcome.ok 55) :: sPend.resolved } ∧
    dlookup 7 (dpop 7 sPend.pending) = none := by
  have h := (handle_reply_resolves sPend 3 frame7 7 1 55 (by decide)).1 0 (by decide)
  exact ⟨h.1, h.2.1⟩

/-! ## C4: send-completion handling -/

/-- C4: a send-completion callback with non-success status removes the
pending entry for the associated transaction tag and completes its future
with the send-failure outcome (the requester therefore sees a failure, not
a success); a send-completion with success status leaves the state — the
pending table in particular — entirely untouched. -/
theorem messageSent_failure_abandons (deserialize : Deserializer) (s : AppState)
    (mt dest : Nat) (f : ApsFrame) (tag status msg : Nat)
    (hn : keysNodup s.pending) :
    (status ≠ 0 → ∀ fid, dlookup tag s.pending = some fid →
       ezsp_callback_handler deserialize s
           (.messageSentHandler mt dest f tag status msg) =
         { s with pending := dpop tag s.pending
                  resolved := (fid, Outcome.sendFailure) :: s.resolved } ∧
       dlookup tag (dpop tag s.pending) = none) ∧
    (status = 0 →
       ezsp_callback_handler deserialize s
           (.messageSentHandler mt dest f tag status msg) = s) := by
  constructor
  · intro hst fid h
    refine ⟨?_, dlookup_dpop_self hn⟩
    simp [ezsp_callback_handler, hst, handle_frame_failure, h]
  · intro hst
    simp [ezsp_callback_handler, hst]

theorem messageSent_failure_abandons_witness :
    (ezsp_callback_handler (fun _ _ => (0, 0, false, 0)) sPend
         (.messageSentHandler 0 34 frame7 7 1 99) =
       { sPend with pending := dpop 7 sPend.pending
                    resolved := (0, Outcome.sendFailure) :: sPend.resolved } ∧
     dlookup 7 (dpop 7 sPend.pending) = none) ∧
    ezsp_callback_handler (fun _ _ => (0, 0, false, 0)) sPend
        (.messageSentHandler 0 34 frame7 7 0 99) = sPend := by
  have h := messageSent_failure_abandons (fun _ _ => (0, 0, false, 0)) sPend
    0 34 frame7 7 1 99 (by decide)
  have h0 := messageSent_failure_abandons (fun _ _ => (0, 0, false, 0)) sPend
    0 34 frame7 7 0 99 (by decide)
  exact ⟨h.1 (by decide) 0 (by decide), h0.2 rfl⟩

/-! ## C8: leave handling -/

/-- Registry well-formedness: each entry's device carries the identity it
is keyed under (true by construction: `add_device` stores `⟨ieee, nwk⟩`
under `ieee`). -/
def devicesWF (s : AppState) : Prop := ∀ p ∈ s.devices, (p : Nat × Device).2.ieee = p.1

instance (s : AppState) : Decidable (devicesWF s) := by
  unfold devicesWF; infer_instance

/-- C8: leaving a registered identity removes its registry entry — lookup
by identity fails afterwards, and lookup by short address can no longer
return a device with that identity — and emits exactly one `device_left`
event carrying that device, with all other state unchanged; leaving an
unregistered identity changes nothing and raises nothing. -/
theorem handle_leave_spec (s : AppState) (nwk0 ieee0 : Nat)
    (hn : keysNodup s.devices) (hwf : devicesWF s) :
    (∀ d, dlookup ieee0 s.devices = some d →
       handle_leave s nwk0 ieee0 =
         { s with devices := dpop ieee0 s.devices
                  events := s.events ++ [.device_left d] } ∧
       get_device_ieee (handle_leave s nwk0 ieee0) ieee0 = none ∧
       (∀ a d', get_device_nwk (handle_leave s nwk0 ieee0) a = some d' →
          d'.ieee ≠ ieee0)) ∧
    (dlookup ieee0 s.devices = none → handle_leave s nwk0 ieee0 = s) := by
  constructor
  · intro d h
    have hEq : handle_leave s nwk0 ieee0 =
        { s with devices := dpop ieee0 s.devices
                 events := s.events ++ [.device_left d] } := by
      simp [handle_leave, h]
    refine ⟨hEq, ?_, ?_⟩
    · rw [hEq]
      exact dlookup_dpop_self hn
    · intro a d' hfind
      rw [hEq] at hfind
      simp only [get_device_nwk, Option.map_eq_some'] at hfind
      rcases hfind with ⟨p, hp, hpd⟩
      have hmem : p ∈ dpop ieee0 s.devices := List.mem_of_find?_eq_some hp
      have hkey : p.1 ≠ ieee0 := key_ne_of_mem_dpop hn hmem
      have hieee : p.2.ieee = p.1 := hwf p (mem_dpop hmem)
      rw [← hpd]
      rw [hieee]
      exact hkey
  · intro h
    simp [handle_leave, h]

theorem handle_leave_spec_witness :
    (handle_leave sDev 10 5 =
       { sDev with devices := dpop 5 sDev.devices
                   events := sDev.events ++ [.device_left { ieee := 5, nwk := 10 }] } ∧
     get_device_ieee (handle_leave sDev 10 5) 5 = none) ∧
    handle_leave sDev 10 99 = sDev := by
  have h := handle_leave_spec sDev 10 5 (by decide) (by decide)
  have h99 := handle_leave_spec sDev 10 99 (by decide) (by decide)
  have h5 := h.1 { ieee := 5, nwk := 10 } (by decide)
  exact ⟨⟨h5.1, h5.2.1⟩, h99.2 (by decide)⟩

/-! ## C9: request correlates by the frame's own sequence -/

/-- C9: when no collision fires, `request` registers its pending future
under exactly the supplied frame's `sequence` field, and the `sendUnicast`
call it issues carries exactly that sequence as the transaction id; the
sequence allocator's counter is never advanced by `request`. -/
theorem request_uses_frame_sequence (sendStatus : Nat) (s : AppState)
    (nwk0 : Nat) (f : ApsFrame) (data : Nat)
    (h : dlookup f.sequence s.pending = none) :
    (request_start sendStatus s nwk0 f data).1.sends
        = s.sends ++ [(nwk0, f, f.sequence, data)] ∧
    (request_start sendStatus s nwk0 f data).1.sendSequence = s.sendSequence ∧
    (sendStatus = 0 →
       (request_start sendStatus s nwk0 f data).1.pending
           = dinsert f.sequence s.nextFut s.pending ∧
       dlookup f.sequence (request_start sendStatus s nwk0 f data).1.pending
           = some s.nextFut) := by
  by_cases hst : sendStatus = 0
  · subst hst
    refine ⟨?_, ?_, fun _ => ⟨?_, ?_⟩⟩ <;>
      simp [request_start, h, dlookup_dinsert_self]
  · refine ⟨?_, ?_, fun h0 => absurd h0 hst⟩ <;>
      simp [request_start, h, hst]

theorem request_uses_frame_sequence_witness :
    (request_start 0 initialState 34 frame7 99).1.sends
        = initialState.sends ++ [(34, frame7, frame7.sequence, 99)] ∧
    (request_start 0 initialState 34 frame7 99).1.sendSequence
        = initialState.sendSequence ∧
    dlookup frame7.sequence (request_start 0 initialState 34 frame7 99).1.pending
        = some initialState.nextFut := by
  have h := request_uses_frame_sequence 0 initialState 34 frame7 99 (by decide)
  exact ⟨h.1, h.2.1, (h.2.2 rfl).2⟩

/-! ## C10: no pending entry survives a completed request -/

/-- C10: a `request` whose `sendUnicast` reports failure raises the send
failure with the freshly registered entry already removed — the pending
table is back to exactly its prior contents and no future was resolved —
and the two resolution paths (`_handle_reply`, `_handle_frame_failure`)
always remove the pending entry for the transaction id they complete, so a
request that returns success has no pending entry left either. -/
theorem request_no_pending_leak (sendStatus : Nat) (s s' : AppState)
    (nwk0 : Nat) (f f2 : ApsFrame)
    (data sender tsn commandId args mt dest tag status msg : Nat)
    (h : dlookup f.sequence s.pending = none) (hn : keysNodup s'.pending) :
    (sendStatus ≠ 0 →
       (request_start sendStatus s nwk0 f data).2
           = Except.error (ReqErr.sendFailure sendStatus) ∧
       (request_start sendStatus s nwk0 f data).1.pending = s.pending ∧
       dlookup f.sequence (request_start sendStatus s nwk0 f data).1.pending = none ∧
       (request_start sendStatus s nwk0 f data).1.resolved = s.resolved) ∧
    dlookup tsn (handle_reply s' sender f2 tsn commandId args).pending = none ∧
    dlookup tag (handle_frame_failure s' mt dest f2 tag status msg).pending = none := by
  refine ⟨fun hst => ?_, ?_, ?_⟩
  · have hpend : (request_start sendStatus s nwk0 f data).1.pending = s.pending := by
      simp [request_start, h, hst, dpop_dinsert h]
    refine ⟨?_, hpend, ?_, ?_⟩
    · simp [request_start, h, hst]
    · rw [hpend]; exact h
    · simp [request_start, h, hst]
  · cases hq : dlookup tsn s'.pending with
    | none => simp [handle_reply, hq]
    | some fid =>
      simp only [handle_reply, hq]
      exact dlookup_dpop_self hn
  · cases hq : dlookup tag s'.pending with
    | none => simp [handle_frame_failure, hq]
    | some fid =>
      simp only [handle_frame_failure, hq]
      exact dlookup_dpop_self hn

theorem request_no_pending_leak_witness :
    ((request_start 3 initialState 34 frame7 99).2
         = Except.error (ReqErr.sendFailure 3) ∧
     (request_start 3 initialState 34 frame7 99).1.pending = initialState.pending ∧
     (request_start 3 initialState 34 frame7 99).1.resolved = initialState.resolved) ∧
    dlookup 7 (handle_reply sPend 3 frame7 7 1 55).pending = none := by
  have h := request_no_pending_leak 3 initialState sPend 34 frame7 frame7
    99 3 7 1 55 0 34 7 1 99 (by decide) (by decide)
  have hf := h.1 (by decide)
  exact ⟨⟨hf.1, hf.2.1, hf.2.2.2⟩, h.2.1⟩

/-! ## C1: join handling (registry update vs. the source's behaviour) -/

/-- C1 counterexample: identity 5 is registered at short address 10; a join
notification arrives for identity 5 at short address 20.  The claim says
the registry entry's short address becomes 20; the source's `add_device`
returns the existing entry untouched (`TODO: Check NWK?`), so the
registered short address is still 10, and the `device_joined` event is
emitted carrying the stale device. -/
theorem handle_join_counterexample :
    dlookup 5 (handle_join sDev 20 5).devices = some { ieee := 5, nwk := 10 } ∧
    (handle_join sDev 20 5).events
        = [AppEvent.device_joined { ieee := 5, nwk := 10 }] ∧
    (10 : Nat) ≠ 20 := by decide

/-- C1 amended: a join for an identity already registered at the same short
address changes nothing (no event, no re-initialization); a join for an
identity registered at a different short address emits `device_joined` and
schedules initialization for the existing device object, but does not
update the registry — the stored short address stays the old one; a join
for an unregistered identity creates the entry at the new short address,
emits `device_joined`, and schedules initialization. -/
theorem handle_join_spec (s : AppState) (nwk0 ieee0 : Nat) :
    (∀ d, dlookup ieee0 s.devices = some d →
       (d.nwk = nwk0 → handle_join s nwk0 ieee0 = s) ∧
       (d.nwk ≠ nwk0 →
          handle_join s nwk0 ieee0 =
            { s with events := s.events ++ [.device_joined d]
                     inits := s.inits ++ [d] })) ∧
    (dlookup ieee0 s.devices = none →
       handle_join s nwk0 ieee0 =
         { s with devices := dinsert ieee0 { ieee := ieee0, nwk := nwk0 } s.devices
                  events := s.events ++ [.device_joined { ieee := ieee0, nwk := nwk0 }]
                  inits := s.inits ++ [{ ieee := ieee0, nwk := nwk0 }] }) := by
  constructor
  · intro d h
    constructor
    · intro hsame
      simp [handle_join, h, hsame]
    · intro hdiff
      simp [handle_join, h, hdiff, handle_join_go, add_device]
  · intro h
    simp [handle_join, h, handle_join_go, add_device]

theorem handle_join_spec_witness :
    handle_join sDev 10 5 = sDev ∧
    handle_join sDev 20 5 =
      { sDev with events := sDev.events ++ [.device_joined { ieee := 5, nwk := 10 }]
                  inits := sDev.inits ++ [{ ieee := 5, nwk := 10 }] } ∧
    handle_join sDev 30 6 =
      { sDev with devices := dinsert 6 { ieee := 6, nwk := 30 } sDev.devices
                  events := sDev.events ++ [.device_joined { ieee := 6, nwk := 30 }]
                  inits := sDev.inits ++ [{ ieee := 6, nwk := 30 }] } := by
  have h5 := (handle_join_spec sDev 10 5).1 { ieee := 5, nwk := 10 } (by decide)
  have h5' := (handle_join_spec sDev 20 5).1 { ieee := 5, nwk := 10 } (by decide)
  have h6 := (handle_join_spec sDev 30 6).2 (by decide)
  exact ⟨h5.1 rfl, h5'.2 (by decide), h6⟩

/-! ## C7: sequence allocation -/

/-- Closed form of `n` consecutive allocations: the `k`-th id handed out
(0-based) is `(start + k + 1) % 256`. -/
theorem allocs_closed_form (s : AppState) (n : Nat) :
    (allocs s n).2 = (List.range n).map (fun k => (s.sendSequence + k + 1) % 256) := by
  induction n generalizing s with
  | zero => simp [allocs]
  | succ n ih =>
    simp only [allocs, get_sequence]
    rw [ih, List.range_succ_eq_map, List.map_cons, List.map_map]
    refine List.cons_eq_cons.mpr ⟨by simp, ?_⟩
    refine List.map_congr_left ?_
    intro k _
    simp only [Function.comp_apply]
    conv_lhs => rw [Nat.add_assoc]
    rw [Nat.mod_add_mod]
    congr 1
    omega

/-- C7 counterexample: starting from a fresh state, 257 consecutive
allocations with no intervening release produce `1, 2, …, 255, 0, 1`: the
257th id (1) equals the very first of the prior 256, which was never
released — the allocator wraps unconditionally. -/
theorem get_sequence_wrap_counterexample :
    (allocs initialState 257).2.getD 256 0 = (allocs initialState 257).2.getD 0 0 ∧
    (allocs initialState 257).2.getD 0 0 ∈ (allocs initialState 257).2.take 256 := by
  rw [allocs_closed_form]
  decide

/-- C7 amended: each allocation returns the previous id plus one modulo 256
(monotonic, wrapping).  Consequently any 256 consecutive allocations are
pairwise distinct, but the 257th allocation necessarily repeats the first
of the prior 256 — there is no release mechanism, so the "until they are
released" guard cannot hold in the allocator itself. -/
theorem get_sequence_spec (s : AppState) :
    (get_sequence s).2 = (s.sendSequence + 1) % 256 ∧
    (get_sequence s).1.sendSequence = (s.sendSequence + 1) % 256 ∧
    ((allocs s 256).2).Nodup ∧
    (allocs s 257).2.getD 256 0 = (allocs s 257).2.getD 0 0 := by
  refine ⟨rfl, rfl, ?_, ?_⟩
  · rw [allocs_closed_form]
    refine List.Nodup.map_on ?_ (List.nodup_range 256)
    intro x hx y hy hf
    simp only [List.mem_range] at hx hy
    omega
  · rw [allocs_closed_form]
    simp only [List.getD_eq_getElem?_getD, List.getElem?_map]
    rw [List.getElem?_range (by omega), List.getElem?_range (by omega)]
    simp only [Option.map_some', Option.getD_some]
    omega

/-! ## C5 / C6: startup sequencer -/

/-- The full ordered list of NCP calls `startup` makes when nothing aborts
it. -/
def fullTrace : List Step :=
  [.reset, .version,
   .setConfig CONFIG_STACK_PROFILE 2, .setConfig CONFIG_SECURITY_LEVEL 5,
   .setConfig CONFIG_SUPPORTED_NETWORKS 1, .setConfig CONFIG_SUPPORTED_NETWORKS 1,
   .setConfig CONFIG_APPLICATION_ZDO_FLAGS zdoFlags,
   .setConfig CONFIG_TRUST_CENTER_ADDRESS_CACHE_SIZE 2,
   .setConfig CONFIG_PACKET_BUFFER_COUNT 0xff,
   .networkInit, .getNetworkParameters,
   .setPolicy TC_KEY_REQUEST_POLICY DENY_TC_KEY_REQUESTS,
   .setPolicy APP_KEY_REQUEST_POLICY ALLOW_APP_KEY_REQUESTS,
   .setPolicy TRUST_CENTER_POLICY ALLOW_PRECONFIGURED_KEY_JOINS,
   .getNodeId, .getEui64]

/-- An NCP oracle on which every call reports success and the node type is
coordinator. -/
def ncpGood : NCP :=
  { resetStatus := 0, versionStatus := 0, setConfigStatus := fun _ _ => 0
    networkInitStatus := 0, getNetworkParametersStatus := 0
    nodeType := COORDINATOR, setPolicyStatus := fun _ _ => 0
    nodeId := 0, eui64 := 42 }

/-- As `ncpGood`, but the node reports the router role
(`EmberNodeType.ROUTER`). -/
def ncpRouter : NCP := { ncpGood with nodeType := 2 }

/-- As `ncpGood`, but `reset()` and `version(4)` report non-success. -/
def ncpResetFails : NCP := { ncpGood with resetStatus := 1, versionStatus := 1 }

/-- As `ncpGood`, but every `setConfigurationValue` reports non-success. -/
def ncpCfgFails : NCP := { ncpGood with setConfigStatus := fun _ _ => 1 }

/-- A transition succeeds when its inspected status is success; unchecked
transitions always succeed. -/
def callOk : Call → Prop
  | .unchecked _ => True
  | .checked _ status => status = 0
  | .roleTest nodeType => nodeType = COORDINATOR

/-- The NCP call a transition executes, if any (the role test performs
none). -/
def stepOf : Call → Option Step
  | .unchecked st => some st
  | .checked st _ => some st
  | .roleTest _ => none


theorem runCall_frozen {q : SeqState} {e : StartupErr} (c : Call)
    (h : q.err = some e) : runCall q c = q := by
  simp [runCall, h]

theorem runCalls_frozen {q : SeqState} {e : StartupErr} (cs : List Call)
    (h : q.err = some e) : runCalls q cs = q := by
  induction cs with
  | nil => rfl
  | cons c cs ih =>
    simp only [runCalls]
    rw [runCall_frozen c h]
    exact ih

theorem runCall_ok {q : SeqState} {c : Call} (hq : q.err = none)
    (hc : callOk c) :
    runCall q c = { trace := q.trace ++ (stepOf c).toList, app := q.app, err := none } := by
  obtain ⟨tr, ap, er⟩ := q
  simp only at hq
  subst hq
  cases c with
  | unchecked st => simp [runCall, stepOf]
  | checked st status =>
    simp only [callOk] at hc
    simp [runCall, hc, stepOf]
  | roleTest nodeType =>
    simp only [callOk] at hc
    simp [runCall, hc, stepOf]

theorem runCalls_ok {cs : List Call} {q : SeqState} (hq : q.err = none)
    (hcs : ∀ c ∈ cs, callOk c) :
    runCalls q cs
      = { trace := q.trace ++ cs.filterMap stepOf, app := q.app, err := none } := by
  induction cs generalizing q with
  | nil =>
    obtain ⟨tr, ap, er⟩ := q
    simp only at hq
    subst hq
    simp [runCalls]
  | cons c cs ih =>
    simp only [runCalls]
    rw [runCall_ok hq (hcs c (List.mem_cons_self c cs))]
    rw [ih rfl (fun c' hc' => hcs c' (List.mem_cons_of_mem c hc'))]
    simp only [List.filterMap_cons]
    cases hst : stepOf c <;> simp [Option.toList]

theorem runCall_err_none_iff {q : SeqState} (c : Call) :
    (runCall q c).err = none ↔ q.err = none ∧ callOk c := by
  cases hq : q.err with
  | some e => rw [runCall_frozen c hq]; simp [hq]
  | none =>
    cases c with
    | unchecked st => simp [runCall, hq, callOk]
    | checked st status =>
      by_cases hs : status = 0 <;> simp [runCall, hq, hs, callOk]
    | roleTest nodeType =>
      by_cases hs : nodeType = COORDINATOR <;> simp [runCall, hq, hs, callOk]

theorem runCalls_err_none_iff (cs : List Call) (q : SeqState) :
    (runCalls q cs).err = none ↔ q.err = none ∧ ∀ c ∈ cs, callOk c := by
  induction cs generalizing q with
  | nil => simp [runCalls]
  | cons c cs ih =>
    simp only [runCalls]
    rw [ih, runCall_err_none_iff]
    constructor
    · rintro ⟨⟨h1, h2⟩, h3⟩
      refine ⟨h1, fun c' hc' => ?_⟩
      rcases List.mem_cons.mp hc' with h | h
      · exact h ▸ h2
      · exact h3 c' h
    · rintro ⟨h1, h2⟩
      exact ⟨⟨h1, h2 c (List.mem_cons_self c cs)⟩,
        fun c' hc' => h2 c' (List.mem_cons_of_mem c hc')⟩

theorem runCall_app (q : SeqState) (c : Call) : (runCall q c).app = q.app := by
  cases hq : q.err with
  | some e => rw [runCall_frozen c hq]
  | none =>
    cases c with
    | unchecked st => simp [runCall, hq]
    | checked st status =>
      by_cases hs : status ≠ 0 <;> simp [runCall, hq, hs]
    | roleTest nodeType =>
      by_cases hs : nodeType ≠ COORDINATOR <;> simp [runCall, hq, hs]

theorem runCalls_app (cs : List Call) (q : SeqState) :
    (runCalls q cs).app = q.app := by
  induction cs generalizing q with
  | nil => rfl
  | cons c cs ih =>
    simp only [runCalls]
    rw [ih, runCall_app]

/-- When a checked transition aborts the sequence, the failing step is the
last call executed and the executed calls are an in-order prefix of the
planned calls. -/
theorem runCalls_stepFailed {cs : List Call} {q : SeqState} {st : Step}
    (hq : q.err = none)
    (h : (runCalls q cs).err = some (.stepFailed st)) :
    (runCalls q cs).trace.getLast? = some st ∧
    (runCalls q cs).trace <+: q.trace ++ cs.filterMap stepOf := by
  induction cs generalizing q with
  | nil =>
    simp only [runCalls] at h
    rw [hq] at h
    exact absurd h (by simp)
  | cons c cs ih =>
    simp only [runCalls] at h ⊢
    cases hq1 : (runCall q c).err with
    | none =>
      have hok : callOk c := ((runCall_err_none_iff c).mp hq1).2
      rw [runCall_ok hq hok] at h ⊢
      obtain ⟨h1, h2⟩ := ih rfl h
      refine ⟨h1, ?_⟩
      refine h2.trans ?_
      rw [List.filterMap_cons]
      cases hst : stepOf c <;>
        simp [hst, Option.toList, List.append_assoc]
    | some e =>
      rw [runCalls_frozen cs hq1] at h ⊢
      rw [hq1] at h
      cases c with
      | unchecked st' => simp [runCall, hq] at hq1
      | checked st' status =>
        by_cases hs : status ≠ 0
        · simp only [runCall, hq, Option.isSome_none, Bool.false_eq_true,
            if_false, if_pos hs] at hq1 h ⊢
          simp only [Option.some_inj] at h
          injection hq1 with hq1'
          rw [← hq1'] at h
          injection h with h'
          subst h'
          refine ⟨by simp [List.getLast?_concat], ?_⟩
          rw [List.filterMap_cons]
          simp only [stepOf]
          exact ⟨cs.filterMap stepOf, by simp⟩
        · simp [runCall, hq, hs] at hq1
      | roleTest nodeType =>
        by_cases hs : nodeType ≠ COORDINATOR
        · simp only [runCall, hq, Option.isSome_none, Bool.false_eq_true,
            if_false, if_pos hs] at hq1 h
          injection hq1 with hq1'
          rw [← hq1'] at h
          simp at h
        · simp [runCall, hq, hs] at hq1

theorem runCalls_append (cs1 cs2 : List Call) (q : SeqState) :
    runCalls q (cs1 ++ cs2) = runCalls (runCalls q cs1) cs2 := by
  induction cs1 generalizing q with
  | nil => rfl
  | cons c cs1 ih =>
    simp only [List.cons_append, runCalls]
    exact ih (runCall q c)

/-- The transitions `startup` performs before the node-type test. -/
def preCalls (ncp : NCP) : List Call :=
  [.unchecked .reset,
   .unchecked .version,
   .checked (.setConfig CONFIG_STACK_PROFILE 2)
     (ncp.setConfigStatus CONFIG_STACK_PROFILE 2),
   .checked (.setConfig CONFIG_SECURITY_LEVEL 5)
     (ncp.setConfigStatus CONFIG_SECURITY_LEVEL 5),
   .checked (.setConfig CONFIG_SUPPORTED_NETWORKS 1)
     (ncp.setConfigStatus CONFIG_SUPPORTED_NETWORKS 1),
   .checked (.setConfig CONFIG_SUPPORTED_NETWORKS 1)
     (ncp.setConfigStatus CONFIG_SUPPORTED_NETWORKS 1),
   .checked (.setConfig CONFIG_APPLICATION_ZDO_FLAGS zdoFlags)
     (ncp.setConfigStatus CONFIG_APPLICATION_ZDO_FLAGS zdoFlags),
   .checked (.setConfig CONFIG_TRUST_CENTER_ADDRESS_CACHE_SIZE 2)
     (ncp.setConfigStatus CONFIG_TRUST_CENTER_ADDRESS_CACHE_SIZE 2),
   .checked (.setConfig CONFIG_PACKET_BUFFER_COUNT 0xff)
     (ncp.setConfigStatus CONFIG_PACKET_BUFFER_COUNT 0xff),
   .checked .networkInit ncp.networkInitStatus,
   .checked .getNetworkParameters ncp.getNetworkParametersStatus]

/-- The transitions `startup` performs after the node-type test. -/
def postCalls (ncp : NCP) : List Call :=
  [.checked (.setPolicy TC_KEY_REQUEST_POLICY DENY_TC_KEY_REQUESTS)
     (ncp.setPolicyStatus TC_KEY_REQUEST_POLICY DENY_TC_KEY_REQUESTS),
   .checked (.setPolicy APP_KEY_REQUEST_POLICY ALLOW_APP_KEY_REQUESTS)
     (ncp.setPolicyStatus APP_KEY_REQUEST_POLICY ALLOW_APP_KEY_REQUESTS),
   .checked (.setPolicy TRUST_CENTER_POLICY ALLOW_PRECONFIGURED_KEY_JOINS)
     (ncp.setPolicyStatus TRUST_CENTER_POLICY ALLOW_PRECONFIGURED_KEY_JOINS),
   .unchecked .getNodeId,
   .unchecked .getEui64]

theorem callsOf_decomp (ncp : NCP) :
    callsOf ncp = preCalls ncp ++ (Call.roleTest ncp.nodeType :: postCalls ncp) := rfl

theorem callsOf_filterMap (ncp : NCP) :
    (callsOf ncp).filterMap stepOf = fullTrace := rfl

theorem callsOf_ok_iff (ncp : NCP) :
    (∀ c ∈ callsOf ncp, callOk c) ↔ inspectedOk ncp := by
  simp only [callsOf, List.forall_mem_cons, List.forall_mem_nil, callOk]
  unfold inspectedOk
  tauto

theorem preCalls_ok {ncp : NCP} (h : preRoleOk ncp) :
    ∀ c ∈ preCalls ncp, callOk c := by
  simp only [preCalls, List.forall_mem_cons, List.forall_mem_nil, callOk]
  unfold preRoleOk at h
  tauto

theorem startup_err_trace (ncp : NCP) (s : AppState) :
    (startup ncp s).err = (runCalls { trace := [], app := s, err := none } (callsOf ncp)).err ∧
    (startup ncp s).trace = (runCalls { trace := [], app := s, err := none } (callsOf ncp)).trace := by
  unfold startup
  cases h : (runCalls { trace := [], app := s, err := none } (callsOf ncp)).err with
  | some e => simp [h]
  | none => simp [h]

/-- C6 counterexample: on an NCP whose `reset()` and `version(4)` report
non-success while everything else succeeds, startup nevertheless completes
and executes every step: the results of the reset and version-check
transitions are never inspected, so a non-success status at those steps
does not abort the sequence. -/
theorem startup_reset_not_inspected_counterexample :
    ncpResetFails.resetStatus ≠ 0 ∧
    ncpResetFails.versionStatus ≠ 0 ∧
    (startup ncpResetFails initialState).err = none ∧
    (startup ncpResetFails initialState).trace = fullTrace := by decide

/-- C6 amended: the `reset` and `version` results are not inspected (the
outcome of startup is independent of their statuses); every configuration
write, the network init, the network-parameters fetch and every policy
install is status-checked — startup completes exactly when all of those
succeed and the role is coordinator — and when one of these checked steps
reports non-success the sequence aborts with an error naming that step,
the failing step being the last call executed of an in-order prefix of the
full call sequence. -/
theorem startup_status_checks (ncp : NCP) (s : AppState) :
    (∀ a b, startup { ncp with resetStatus := a, versionStatus := b } s = startup ncp s) ∧
    ((startup ncp s).err = none ↔ inspectedOk ncp) ∧
    (inspectedOk ncp → (startup ncp s).trace = fullTrace) ∧
    (∀ st, (startup ncp s).err = some (.stepFailed st) →
       (startup ncp s).trace.getLast? = some st ∧
       (startup ncp s).trace <+: fullTrace) := by
  obtain ⟨he, ht⟩ := startup_err_trace ncp s
  refine ⟨fun a b => rfl, ?_, ?_, ?_⟩
  · rw [he, runCalls_err_none_iff, callsOf_ok_iff]
    simp
  · intro hins
    rw [ht, runCalls_ok rfl ((callsOf_ok_iff ncp).mpr hins)]
    simp [callsOf_filterMap]
  · intro st h
    rw [he] at h
    obtain ⟨h1, h2⟩ := runCalls_stepFailed rfl h
    rw [ht]
    refine ⟨h1, ?_⟩
    rw [callsOf_filterMap] at h2
    simpa using h2

theorem startup_status_checks_witness :
    (startup ncpCfgFails initialState).trace.getLast?
        = some (Step.setConfig CONFIG_STACK_PROFILE 2) ∧
    (startup ncpGood initialState).trace = fullTrace := by
  refine ⟨((startup_status_checks ncpCfgFails initialState).2.2.2
      (Step.setConfig CONFIG_STACK_PROFILE 2) (by decide)).1, ?_⟩
  exact (startup_status_checks ncpGood initialState).2.2.1 (by decide)

theorem startup_app_of_fail (ncp : NCP) (s : AppState)
    (h : (startup ncp s).err ≠ none) : (startup ncp s).app = s := by
  unfold startup at h ⊢
  cases hq : (runCalls { trace := [], app := s, err := none } (callsOf ncp)).err with
  | none => simp [hq] at h
  | some e =>
    simp only [hq]
    exact runCalls_app (callsOf ncp) { trace := [], app := s, err := none }

/-- C5: when every NCP call reports success and the role is coordinator,
startup completes and latches the session's short address and 64-bit
identity (both non-null); when the steps preceding the role check succeed
but the reported role is not coordinator (e.g. a router), startup aborts
with the dedicated "not configured as coordinator" error; and whenever the
reported role is not coordinator — whatever the other statuses — startup
fails and neither the address nor the identity is latched. -/
theorem startup_role (ncp : NCP) (s : AppState)
    (h0 : s.nwk = none) (h1 : s.ieee = none) :
    (inspectedOk ncp →
       (startup ncp s).err = none ∧
       (startup ncp s).app.nwk = some ncp.nodeId ∧
       (startup ncp s).app.ieee = some ncp.eui64) ∧
    (preRoleOk ncp → ncp.nodeType ≠ COORDINATOR →
       (startup ncp s).err = some StartupErr.notCoordinator ∧
       (startup ncp s).app.nwk = none ∧
       (startup ncp s).app.ieee = none) ∧
    (ncp.nodeType ≠ COORDINATOR →
       (startup ncp s).err ≠ none ∧
       (startup ncp s).app.nwk = none ∧
       (startup ncp s).app.ieee = none) := by
  refine ⟨?_, ?_, ?_⟩
  case refine_3 =>
    intro hrole
    have hne : (startup ncp s).err ≠ none := by
      intro hnone
      rw [(startup_err_trace ncp s).1, runCalls_err_none_iff, callsOf_ok_iff] at hnone
      have hins := hnone.2
      unfold inspectedOk at hins
      exact hrole hins.2.2.2.2.2.2.2.2.1
    have happ := startup_app_of_fail ncp s hne
    rw [happ]
    exact ⟨hne, h0, h1⟩
  · intro hins
    have hok : ∀ c ∈ callsOf ncp, callOk c := (callsOf_ok_iff ncp).mpr hins
    have hrun := runCalls_ok (q := { trace := [], app := s, err := none }) rfl hok
    unfold startup
    rw [hrun]
    simp
  · intro hpre hrole
    have hrun : runCalls { trace := [], app := s, err := none } (callsOf ncp)
        = { trace := [] ++ (preCalls ncp).filterMap stepOf, app := s
            err := some StartupErr.notCoordinator } := by
      rw [callsOf_decomp, runCalls_append,
        runCalls_ok (q := { trace := [], app := s, err := none }) rfl (preCalls_ok hpre)]
      simp only [runCalls]
      rw [show runCall
          { trace := [] ++ (preCalls ncp).filterMap stepOf, app := s, err := none }
          (Call.roleTest ncp.nodeType)
        = { trace := [] ++ (preCalls ncp).filterMap stepOf, app := s
            err := some StartupErr.notCoordinator } from by simp [runCall, hrole]]
      exact runCalls_frozen
        (q := { trace := [] ++ (preCalls ncp).filterMap stepOf, app := s
                err := some StartupErr.notCoordinator })
        (e := StartupErr.notCoordinator) (postCalls ncp) rfl
    unfold startup
    rw [hrun]
    simp [h0, h1]

theorem startup_role_witness :
    ((startup ncpGood initialState).err = none ∧
     (startup ncpGood initialState).app.nwk = some ncpGood.nodeId ∧
     (startup ncpGood initialState).app.ieee = some ncpGood.eui64) ∧
    ((startup ncpRouter initialState).err = some StartupErr.notCoordinator ∧
     (startup ncpRouter initialState).app.nwk = none ∧
     (startup ncpRouter initialState).app.ieee = none) :=
  ⟨(startup_role ncpGood initialState rfl rfl).1 (by decide),
   (startup_role ncpRouter initialState rfl rfl).2.1 (by decide) (by decide)⟩

end Bellows
